import Mathlib

/-!
Shallow embedding of `src/app/main.py` (Lip-Sync Generation API), a FastAPI
service with two handlers:

* `POST /generate`  (`start_generation`): validates `video_choice` against
  `PREDEFINED_VIDEOS`, writes the uploaded audio to a unique temp file,
  uploads it to Cloudinary, calls the sync.so `create` endpoint, and returns
  `{"job_id": ...}` with HTTP 202. Exceptions are translated in `except`
  clauses, and a `finally` block removes the temp file.

* `GET /status/{job_id}` (`get_status`): calls the provider `get`, and on a
  `"COMPLETED"` status re-uploads the output URL to Cloudinary before
  answering; on `"FAILED"` it answers with the job error (Python `or`
  fallback); otherwise it echoes the status. `ApiError` with status 404 is
  mapped to HTTP 404, other `ApiError`s keep their status code and body, and
  any other exception becomes HTTP 500.

External calls (provider `create`/`get`, Cloudinary upload, reading the
uploaded file) are modelled by explicit outcome parameters in environment
records, so every exit path of the Python code corresponds to a choice of
environment. Side effects are recorded in an explicit effect trace and the
local filesystem is a list of existing paths.
-/

namespace Lipsync

/-- The job record returned by `client.get(job_id)` (sync.so generation):
`id`, `status` (a plain string such as `"COMPLETED"`), optional
`output_url` and optional `error`. -/
structure Generation where
  id : String
  status : String
  output_url : Option String
  error : Option String
  deriving Repr, DecidableEq

/-- Python exceptions relevant to the handlers: `ApiError` (provider error
with `status_code` and `body`) and any other exception with its message. -/
inductive Exc where
  | apiError (status_code : Nat) (body : String)
  | other (msg : String)
  deriving Repr, DecidableEq

/-- An HTTP response: status code plus a JSON object modelled as a list of
string key/value pairs (`HTTPException` responses carry a `detail` key). -/
structure Response where
  status_code : Nat
  body : List (String × String)
  deriving Repr, DecidableEq

/-- Observable side effects of one handler invocation. -/
inductive Effect where
  | fsWrite (path : String)
  | fsRemove (path : String)
  | hostUpload (source : Option String)
  | providerCreate (video_url audio_url model sync_mode : String)
  | providerGet (job_id : String)
  deriving Repr, DecidableEq

/-- Python truthiness of an optional string: `None` and `""` are falsy. -/
def pyTruthy : Option String → Bool
  | none => false
  | some s => s ≠ ""

/-- Python `a or b` for an optional string `a`: yields `b` when `a` is
`None` or empty, mirroring `generation.error or "..."`. -/
def pyOr (a : Option String) (b : String) : String :=
  match a with
  | none => b
  | some s => if s = "" then b else s

/-- The static table `PREDEFINED_VIDEOS` from the source. -/
def PREDEFINED_VIDEOS : List (String × String) :=
  [("video1", "https://res.cloudinary.com/dazwg6em3/video/upload/v1727710328/morgan_freeman_hbhs1g.mp4")]

/-- Dictionary lookup `PREDEFINED_VIDEOS[video_choice]`; `none` models the
Python `video_choice not in PREDEFINED_VIDEOS` case. -/
def lookupVideo (k : String) : Option String :=
  PREDEFINED_VIDEOS.lookup k

/-- Startup check from module load: `os.getenv` yields `Option String`, and
`if not SYNC_API_KEY or not CLOUDINARY_URL: raise RuntimeError(...)`. -/
def startupCheck (sync_api_key cloudinary_url : Option String) : Except String Unit :=
  if !(pyTruthy sync_api_key) || !(pyTruthy cloudinary_url) then
    Except.error "Missing SYNC_API_KEY or CLOUDINARY_URL in environment variables"
  else
    Except.ok ()

/-- Exception translation in `start_generation`: `except ApiError` keeps the
provider status code and stringified body; `except Exception` becomes 500. -/
def handleExcGen : Exc → Response
  | Exc.apiError sc body => ⟨sc, [("detail", body)]⟩
  | Exc.other msg => ⟨500, [("detail", "An unexpected error occurred: " ++ msg)]⟩

/-- Exception translation in `get_status`: an `ApiError` with status 404 is
mapped to HTTP 404 `"Job ID not found."`; other `ApiError`s keep status code
and body; any other exception becomes 500. -/
def handleExcStatus : Exc → Response
  | Exc.apiError sc body =>
      if sc = 404 then ⟨404, [("detail", "Job ID not found.")]⟩
      else ⟨sc, [("detail", body)]⟩
  | Exc.other msg => ⟨500, [("detail", "An unexpected error occurred: " ++ msg)]⟩

instance {ε α : Type} [DecidableEq ε] [DecidableEq α] : DecidableEq (Except ε α) :=
  fun a b =>
    match a, b with
    | Except.error e1, Except.error e2 =>
        if h : e1 = e2 then isTrue (by rw [h]) else isFalse (by intro hh; cases hh; exact h rfl)
    | Except.error _, Except.ok _ => isFalse (by intro hh; cases hh)
    | Except.ok _, Except.error _ => isFalse (by intro hh; cases hh)
    | Except.ok a1, Except.ok a2 =>
        if h : a1 = a2 then isTrue (by rw [h]) else isFalse (by intro hh; cases hh; exact h rfl)

/-- Environment of one `start_generation` request: outcomes of
`await audio.read()`, `cloudinary.uploader.upload(audio_path, ...)`
(yielding `upload_result["secure_url"]`), and `client.create(...)`
(yielding `response.id`). -/
structure GenEnv where
  readRes : Except Exc String
  uploadRes : Except Exc String
  createRes : Except Exc String
  deriving Repr, DecidableEq

/-- The `try` body of `start_generation` after validation: create the temp
file, read and write the audio, upload it, start the job. Returns the
response or the escaping exception, together with the effect trace and the
filesystem after the body. The `with open(audio_path, "wb")` creates the
file before the read, so the file exists on every exit of the body. -/
def startGenerationBody (video_url audio_path : String) (env : GenEnv)
    (fs : List String) : Except Exc Response × List Effect × List String :=
  let fs1 := if audio_path ∈ fs then fs else audio_path :: fs
  let eff1 := [Effect.fsWrite audio_path]
  match env.readRes with
  | Except.error e => (Except.error e, eff1, fs1)
  | Except.ok _ =>
    match env.uploadRes with
    | Except.error e => (Except.error e, eff1 ++ [Effect.hostUpload (some audio_path)], fs1)
    | Except.ok public_audio_url =>
      let eff2 := eff1 ++ [Effect.hostUpload (some audio_path),
        Effect.providerCreate video_url public_audio_url "lipsync-2" "cut_off"]
      match env.createRes with
      | Except.error e => (Except.error e, eff2, fs1)
      | Except.ok job_id => (Except.ok ⟨202, [("job_id", job_id)]⟩, eff2, fs1)

/-- The `POST /generate` handler `start_generation`. Returns the HTTP
response, the effect trace, and the final filesystem. The `finally` block
(`if os.path.exists(audio_path): os.remove(audio_path)`) runs on every path
that passed validation; the existence guard means the removal itself cannot
fail on a missing file. -/
def start_generation (video_choice audio_path : String) (env : GenEnv)
    (fs : List String) : Response × List Effect × List String :=
  match lookupVideo video_choice with
  | none => (⟨400, [("detail", "Invalid video choice.")]⟩, [], fs)
  | some video_url =>
    let r := startGenerationBody video_url audio_path env fs
    let fs1 := r.2.2
    let effs := r.2.1
    let cleaned : List Effect × List String :=
      if audio_path ∈ fs1 then (effs ++ [Effect.fsRemove audio_path], fs1.erase audio_path)
      else (effs, fs1)
    let response :=
      match r.1 with
      | Except.ok resp => resp
      | Except.error e => handleExcGen e
    (response, cleaned.1, cleaned.2)

/-- Environment of one `get_status` request: the outcome of
`client.get(job_id)` and, when the handler reaches it, the outcome of
`cloudinary.uploader.upload(final_video_url, ...)`. -/
structure StatusEnv where
  getRes : Except Exc Generation
  uploadRes : Except Exc String
  deriving Repr, DecidableEq

/-- The `GET /status/{job_id}` handler `get_status`. Returns the HTTP
response and the effect trace. The whole body is inside `try`, so an
exception from either the provider `get` or the Cloudinary upload reaches
the same `except` clauses. -/
def get_status (job_id : String) (env : StatusEnv) : Response × List Effect :=
  let eff0 := [Effect.providerGet job_id]
  match env.getRes with
  | Except.error e => (handleExcStatus e, eff0)
  | Except.ok generation =>
    if generation.status = "COMPLETED" then
      let effs := eff0 ++ [Effect.hostUpload generation.output_url]
      match env.uploadRes with
      | Except.error e => (handleExcStatus e, effs)
      | Except.ok secure_url =>
          (⟨200, [("status", generation.status), ("video_url", secure_url)]⟩, effs)
    else if generation.status = "FAILED" then
      (⟨200, [("status", generation.status),
        ("error", pyOr generation.error "Lip-sync generation failed.")]⟩, eff0)
    else
      (⟨200, [("status", generation.status)]⟩, eff0)

/-- Number of hosting-provider uploads in an effect trace. -/
def countUploads : List Effect → Nat
  | [] => 0
  | Effect.hostUpload _ :: es => countUploads es + 1
  | _ :: es => countUploads es

/-- Number of provider `create` calls in an effect trace. -/
def countCreates : List Effect → Nat
  | [] => 0
  | Effect.providerCreate _ _ _ _ :: es => countCreates es + 1
  | _ :: es => countCreates es

/-- Whether an effect trace contains any provider `get` call. -/
def hasProviderGet : List Effect → Bool
  | [] => false
  | Effect.providerGet _ :: _ => true
  | _ :: es => hasProviderGet es

/-- Effect trace of `n` successive polls of the same job under the same
provider behaviour. -/
def repeatedPollEffects (job_id : String) (env : StatusEnv) : Nat → List Effect
  | 0 => []
  | n + 1 => (get_status job_id env).2 ++ repeatedPollEffects job_id env n

/-- Helper: `countUploads` is additive over trace concatenation. -/
theorem countUploads_append (xs ys : List Effect) :
    countUploads (xs ++ ys) = countUploads xs + countUploads ys := by
  induction xs with
  | nil => simp [countUploads]
  | cons e es ih => cases e <;> simp [countUploads, ih, Nat.add_right_comm]

/-- C2: a `POST /generate` request whose `video_choice` is not in
`PREDEFINED_VIDEOS` gets HTTP 400 with detail `"Invalid video choice."`,
an empty effect trace (no filesystem write, no upload, no job creation),
and an unchanged filesystem. -/
theorem invalid_choice_rejected_without_effects
    (video_choice audio_path : String) (env : GenEnv) (fs : List String)
    (h : lookupVideo video_choice = none) :
    start_generation video_choice audio_path env fs =
      (⟨400, [("detail", "Invalid video choice.")]⟩, [], fs) := by
  unfold start_generation
  rw [h]

/-- Witness for C2 at the unknown key `"video2"`. -/
theorem invalid_choice_rejected_without_effects_witness :
    lookupVideo "video2" = none ∧
    start_generation "video2" "uploads/a.wav"
        ⟨Except.ok "c", Except.ok "u", Except.ok "j"⟩ ["other.txt"] =
      (⟨400, [("detail", "Invalid video choice.")]⟩, [], ["other.txt"]) :=
  ⟨rfl, invalid_choice_rejected_without_effects "video2" "uploads/a.wav"
    ⟨Except.ok "c", Except.ok "u", Except.ok "j"⟩ ["other.txt"] rfl⟩

/-- C4: when the provider `get` raises an `ApiError` with status code 404
(job id unknown upstream), `get_status` answers HTTP 404 with detail
`"Job ID not found."`. -/
theorem unknown_job_id_maps_to_404 (job_id body : String)
    (uploadRes : Except Exc String) :
    (get_status job_id ⟨Except.error (Exc.apiError 404 body), uploadRes⟩).1 =
      ⟨404, [("detail", "Job ID not found.")]⟩ := by
  rfl

/-- C8: if either required credential is absent from the environment
(`os.getenv` returned `None`), the module-level check raises and the
service refuses to start. -/
theorem missing_credentials_refuse_startup (k u : Option String)
    (h : k = none ∨ u = none) :
    startupCheck k u =
      Except.error "Missing SYNC_API_KEY or CLOUDINARY_URL in environment variables" := by
  rcases h with h | h <;> subst h <;> simp [startupCheck, pyTruthy]

/-- Witness for C8: missing `SYNC_API_KEY` with `CLOUDINARY_URL` present. -/
theorem missing_credentials_refuse_startup_witness :
    startupCheck none (some "cloudinary://x") =
      Except.error "Missing SYNC_API_KEY or CLOUDINARY_URL in environment variables" :=
  missing_credentials_refuse_startup none (some "cloudinary://x") (Or.inl rfl)

/-- C1 counterexample: a job whose provider status is `"REJECTED"` with
upstream error message `"bad audio"` is NOT answered with a failure
carrying that message: the handler only tests `status == "FAILED"`, so a
`REJECTED` job falls through to the status-only branch and the response
body has no `error` field at all. -/
theorem rejected_job_response_has_no_error_field :
    (get_status "job-1"
        ⟨Except.ok ⟨"job-1", "REJECTED", none, some "bad audio"⟩, Except.ok "u"⟩).1 =
      ⟨200, [("status", "REJECTED")]⟩ ∧
    ((get_status "job-1"
        ⟨Except.ok ⟨"job-1", "REJECTED", none, some "bad audio"⟩, Except.ok "u"⟩).1.body.lookup
      "error") = none := by
  exact ⟨rfl, rfl⟩

/-- C1 (amended): only a `"FAILED"` status is answered as a failure: the
upstream error message is surfaced verbatim when present and non-empty
(Python `or` truthiness), and the generic fallback
`"Lip-sync generation failed."` is used when it is absent or empty; a
`"REJECTED"` status instead falls through to the status-only response
with no error message. -/
theorem failed_error_surfaced_rejected_falls_through
    (job_id : String) (g : Generation) (uploadRes : Except Exc String) :
    (g.status = "FAILED" →
      ∀ msg, g.error = some msg → msg ≠ "" →
        (get_status job_id ⟨Except.ok g, uploadRes⟩).1 =
          ⟨200, [("status", "FAILED"), ("error", msg)]⟩) ∧
    (g.status = "FAILED" → (g.error = none ∨ g.error = some "") →
        (get_status job_id ⟨Except.ok g, uploadRes⟩).1 =
          ⟨200, [("status", "FAILED"), ("error", "Lip-sync generation failed.")]⟩) ∧
    (g.status = "REJECTED" →
        (get_status job_id ⟨Except.ok g, uploadRes⟩).1 =
          ⟨200, [("status", "REJECTED")]⟩) := by
  refine ⟨?_, ?_, ?_⟩
  · intro h msg hmsg hne
    simp [get_status, h, pyOr, hmsg, hne]
  · intro h herr
    rcases herr with herr | herr <;> simp [get_status, h, pyOr, herr]
  · intro h
    simp [get_status, h]

/-- Witness for C1 (amended): a `FAILED` job with message `"bad audio"`
is answered with that message verbatim. -/
theorem failed_error_surfaced_rejected_falls_through_witness :
    (get_status "job-1"
        ⟨Except.ok ⟨"job-1", "FAILED", none, some "bad audio"⟩, Except.ok "u"⟩).1 =
      ⟨200, [("status", "FAILED"), ("error", "bad audio")]⟩ :=
  (failed_error_surfaced_rejected_falls_through "job-1"
      ⟨"job-1", "FAILED", none, some "bad audio"⟩ (Except.ok "u")).1
    rfl "bad audio" rfl (by decide)

/-- C3: for every request that passes the `video_choice` validation, and
whatever the outcomes of the read, upload and create steps (successful
return, provider `ApiError`, or any other exception), the uniquely-named
temporary audio file is gone from the filesystem once the response is
produced: the `finally` block always runs, and its existence guard means
the removal itself cannot fail. -/
theorem temp_audio_removed_on_every_path
    (video_choice audio_path video_url : String) (env : GenEnv) (fs : List String)
    (hv : lookupVideo video_choice = some video_url)
    (hfresh : audio_path ∉ fs) :
    audio_path ∉ (start_generation video_choice audio_path env fs).2.2 := by
  obtain ⟨r, u, c⟩ := env
  unfold start_generation startGenerationBody
  rw [hv]
  cases r <;> cases u <;> cases c <;> simp [hfresh]

/-- Witness for C3 on an error path: the upload raises a generic
exception, and the temp file is still gone afterwards. -/
theorem temp_audio_removed_on_every_path_witness :
    lookupVideo "video1" =
      some "https://res.cloudinary.com/dazwg6em3/video/upload/v1727710328/morgan_freeman_hbhs1g.mp4" ∧
    "uploads/t.wav" ∉ ["other.wav"] ∧
    "uploads/t.wav" ∉ (start_generation "video1" "uploads/t.wav"
      ⟨Except.ok "c", Except.error (Exc.other "boom"), Except.ok "j"⟩
      ["other.wav"]).2.2 :=
  ⟨rfl, by decide, temp_audio_removed_on_every_path "video1" "uploads/t.wav"
    "https://res.cloudinary.com/dazwg6em3/video/upload/v1727710328/morgan_freeman_hbhs1g.mp4"
    ⟨Except.ok "c", Except.error (Exc.other "boom"), Except.ok "j"⟩
    ["other.wav"] rfl (by decide)⟩

/-- C5: for a job the provider reports `"COMPLETED"` with output URL `X`,
`get_status` performs a hosting upload of `X` and, when that upload
succeeds with `secure_url`, answers 200 with the `COMPLETED` status and
that video URL. -/
theorem completed_job_reuploaded_and_returned
    (job_id url secure : String) (g : Generation)
    (hs : g.status = "COMPLETED") (ho : g.output_url = some url) :
    (get_status job_id ⟨Except.ok g, Except.ok secure⟩).1 =
      ⟨200, [("status", "COMPLETED"), ("video_url", secure)]⟩ ∧
    Effect.hostUpload (some url) ∈
      (get_status job_id ⟨Except.ok g, Except.ok secure⟩).2 := by
  constructor <;> simp [get_status, hs, ho]

/-- Witness for C5 at a concrete completed job. -/
theorem completed_job_reuploaded_and_returned_witness :
    (get_status "job-1"
        ⟨Except.ok ⟨"job-1", "COMPLETED", some "http://out.mp4", none⟩, Except.ok "http://sec.mp4"⟩).1 =
      ⟨200, [("status", "COMPLETED"), ("video_url", "http://sec.mp4")]⟩ ∧
    Effect.hostUpload (some "http://out.mp4") ∈
      (get_status "job-1"
        ⟨Except.ok ⟨"job-1", "COMPLETED", some "http://out.mp4", none⟩, Except.ok "http://sec.mp4"⟩).2 :=
  completed_job_reuploaded_and_returned "job-1" "http://out.mp4" "http://sec.mp4"
    ⟨"job-1", "COMPLETED", some "http://out.mp4", none⟩ rfl rfl

/-- C6: for a valid request whose read, upload and create steps succeed,
`start_generation` answers HTTP 202 with the job id; its effect trace is
exactly write, audio upload, one provider `create` (model `"lipsync-2"`,
sync mode `"cut_off"`), and the temp-file removal — in particular `create`
is called exactly once and the provider `get` is never called. -/
theorem valid_generate_returns_202_job_id_without_get
    (video_choice audio_path video_url content audio_url job_id : String)
    (fs : List String)
    (hv : lookupVideo video_choice = some video_url) :
    (start_generation video_choice audio_path
        ⟨Except.ok content, Except.ok audio_url, Except.ok job_id⟩ fs).1 =
      ⟨202, [("job_id", job_id)]⟩ ∧
    (start_generation video_choice audio_path
        ⟨Except.ok content, Except.ok audio_url, Except.ok job_id⟩ fs).2.1 =
      [Effect.fsWrite audio_path, Effect.hostUpload (some audio_path),
        Effect.providerCreate video_url audio_url "lipsync-2" "cut_off",
        Effect.fsRemove audio_path] ∧
    countCreates [Effect.fsWrite audio_path, Effect.hostUpload (some audio_path),
        Effect.providerCreate video_url audio_url "lipsync-2" "cut_off",
        Effect.fsRemove audio_path] = 1 ∧
    hasProviderGet [Effect.fsWrite audio_path, Effect.hostUpload (some audio_path),
        Effect.providerCreate video_url audio_url "lipsync-2" "cut_off",
        Effect.fsRemove audio_path] = false := by
  refine ⟨?_, ?_, rfl, rfl⟩
  · unfold start_generation startGenerationBody
    rw [hv]
  · unfold start_generation startGenerationBody
    rw [hv]
    by_cases hmem : audio_path ∈ fs <;> simp [hmem]

/-- Witness for C6 at a concrete valid request. -/
theorem valid_generate_returns_202_job_id_without_get_witness :
    (start_generation "video1" "uploads/t.wav"
        ⟨Except.ok "c", Except.ok "http://aud.wav", Except.ok "job-9"⟩ []).1 =
      ⟨202, [("job_id", "job-9")]⟩ ∧
    (start_generation "video1" "uploads/t.wav"
        ⟨Except.ok "c", Except.ok "http://aud.wav", Except.ok "job-9"⟩ []).2.1 =
      [Effect.fsWrite "uploads/t.wav", Effect.hostUpload (some "uploads/t.wav"),
        Effect.providerCreate
          "https://res.cloudinary.com/dazwg6em3/video/upload/v1727710328/morgan_freeman_hbhs1g.mp4"
          "http://aud.wav" "lipsync-2" "cut_off",
        Effect.fsRemove "uploads/t.wav"] ∧
    countCreates [Effect.fsWrite "uploads/t.wav", Effect.hostUpload (some "uploads/t.wav"),
        Effect.providerCreate
          "https://res.cloudinary.com/dazwg6em3/video/upload/v1727710328/morgan_freeman_hbhs1g.mp4"
          "http://aud.wav" "lipsync-2" "cut_off",
        Effect.fsRemove "uploads/t.wav"] = 1 ∧
    hasProviderGet [Effect.fsWrite "uploads/t.wav", Effect.hostUpload (some "uploads/t.wav"),
        Effect.providerCreate
          "https://res.cloudinary.com/dazwg6em3/video/upload/v1727710328/morgan_freeman_hbhs1g.mp4"
          "http://aud.wav" "lipsync-2" "cut_off",
        Effect.fsRemove "uploads/t.wav"] = false :=
  valid_generate_returns_202_job_id_without_get "video1" "uploads/t.wav"
    "https://res.cloudinary.com/dazwg6em3/video/upload/v1727710328/morgan_freeman_hbhs1g.mp4"
    "c" "http://aud.wav" "job-9" [] rfl

/-- C7: in both handlers, an `ApiError` that is not otherwise mapped (for
`get_status` that means its status code is not 404) is translated to an
HTTP response with the provider status code and the provider body as
detail, and any other exception becomes HTTP 500 with the
`"An unexpected error occurred: ..."` message — at every point at which
the Python `try` body can raise: the read, audio-upload and create steps
of `start_generation`, and the provider `get` and re-upload steps of
`get_status`. -/
theorem provider_errors_translated_others_500
    (sc : Nat) (b m : String) (h404 : sc ≠ 404)
    (video_choice audio_path video_url job_id c a j : String)
    (fs : List String) (g : Generation)
    (hv : lookupVideo video_choice = some video_url)
    (hg : g.status = "COMPLETED") :
    (start_generation video_choice audio_path
        ⟨Except.ok c, Except.error (Exc.apiError sc b), Except.ok j⟩ fs).1 =
      ⟨sc, [("detail", b)]⟩ ∧
    (start_generation video_choice audio_path
        ⟨Except.ok c, Except.ok a, Except.error (Exc.apiError sc b)⟩ fs).1 =
      ⟨sc, [("detail", b)]⟩ ∧
    (start_generation video_choice audio_path
        ⟨Except.error (Exc.other m), Except.ok a, Except.ok j⟩ fs).1 =
      ⟨500, [("detail", "An unexpected error occurred: " ++ m)]⟩ ∧
    (start_generation video_choice audio_path
        ⟨Except.ok c, Except.error (Exc.other m), Except.ok j⟩ fs).1 =
      ⟨500, [("detail", "An unexpected error occurred: " ++ m)]⟩ ∧
    (start_generation video_choice audio_path
        ⟨Except.ok c, Except.ok a, Except.error (Exc.other m)⟩ fs).1 =
      ⟨500, [("detail", "An unexpected error occurred: " ++ m)]⟩ ∧
    (get_status job_id ⟨Except.error (Exc.apiError sc b), Except.ok a⟩).1 =
      ⟨sc, [("detail", b)]⟩ ∧
    (get_status job_id ⟨Except.error (Exc.other m), Except.ok a⟩).1 =
      ⟨500, [("detail", "An unexpected error occurred: " ++ m)]⟩ ∧
    (get_status job_id ⟨Except.ok g, Except.error (Exc.apiError sc b)⟩).1 =
      ⟨sc, [("detail", b)]⟩ ∧
    (get_status job_id ⟨Except.ok g, Except.error (Exc.other m)⟩).1 =
      ⟨500, [("detail", "An unexpected error occurred: " ++ m)]⟩ := by
  refine ⟨?_, ?_, ?_, ?_, ?_, ?_, ?_, ?_, ?_⟩ <;>
    simp [start_generation, startGenerationBody, get_status,
      handleExcGen, handleExcStatus, hv, hg, h404]

/-- Witness for C7 at a provider error 503/"busy" and a generic exception
"boom", on a valid request and a completed job. -/
theorem provider_errors_translated_others_500_witness :
    (start_generation "video1" "uploads/t.wav"
        ⟨Except.ok "c", Except.error (Exc.apiError 503 "busy"), Except.ok "j"⟩ []).1 =
      ⟨503, [("detail", "busy")]⟩ ∧
    (start_generation "video1" "uploads/t.wav"
        ⟨Except.ok "c", Except.ok "http://aud.wav", Except.error (Exc.apiError 503 "busy")⟩ []).1 =
      ⟨503, [("detail", "busy")]⟩ ∧
    (start_generation "video1" "uploads/t.wav"
        ⟨Except.error (Exc.other "boom"), Except.ok "http://aud.wav", Except.ok "j"⟩ []).1 =
      ⟨500, [("detail", "An unexpected error occurred: " ++ "boom")]⟩ ∧
    (start_generation "video1" "uploads/t.wav"
        ⟨Except.ok "c", Except.error (Exc.other "boom"), Except.ok "j"⟩ []).1 =
      ⟨500, [("detail", "An unexpected error occurred: " ++ "boom")]⟩ ∧
    (start_generation "video1" "uploads/t.wav"
        ⟨Except.ok "c", Except.ok "http://aud.wav", Except.error (Exc.other "boom")⟩ []).1 =
      ⟨500, [("detail", "An unexpected error occurred: " ++ "boom")]⟩ ∧
    (get_status "job-1" ⟨Except.error (Exc.apiError 503 "busy"), Except.ok "http://aud.wav"⟩).1 =
      ⟨503, [("detail", "busy")]⟩ ∧
    (get_status "job-1" ⟨Except.error (Exc.other "boom"), Except.ok "http://aud.wav"⟩).1 =
      ⟨500, [("detail", "An unexpected error occurred: " ++ "boom")]⟩ ∧
    (get_status "job-1" ⟨Except.ok ⟨"job-1", "COMPLETED", some "http://out.mp4", none⟩,
        Except.error (Exc.apiError 503 "busy")⟩).1 =
      ⟨503, [("detail", "busy")]⟩ ∧
    (get_status "job-1" ⟨Except.ok ⟨"job-1", "COMPLETED", some "http://out.mp4", none⟩,
        Except.error (Exc.other "boom")⟩).1 =
      ⟨500, [("detail", "An unexpected error occurred: " ++ "boom")]⟩ :=
  provider_errors_translated_others_500 503 "busy" "boom" (by decide)
    "video1" "uploads/t.wav"
    "https://res.cloudinary.com/dazwg6em3/video/upload/v1727710328/morgan_freeman_hbhs1g.mp4"
    "job-1" "c" "http://aud.wav" "j" []
    ⟨"job-1", "COMPLETED", some "http://out.mp4", none⟩ rfl rfl

/-- C9: `GET /status/{job_id}` is not idempotent in effects for completed
jobs: each of `n` successive polls of a job whose provider status is
`"COMPLETED"` performs its own fresh hosting upload, so `n` polls perform
exactly `n` uploads. -/
theorem completed_polls_upload_each_time
    (job_id : String) (g : Generation) (uploadRes : Except Exc String)
    (hs : g.status = "COMPLETED") (n : Nat) :
    countUploads (repeatedPollEffects job_id ⟨Except.ok g, uploadRes⟩ n) = n := by
  induction n with
  | zero => rfl
  | succ k ih =>
    have hone : countUploads (get_status job_id ⟨Except.ok g, uploadRes⟩).2 = 1 := by
      cases uploadRes <;> simp [get_status, hs, countUploads]
    simp [repeatedPollEffects, countUploads_append, hone, ih]
    omega

/-- Witness for C9: two polls of the same completed job perform two
uploads. -/
theorem completed_polls_upload_each_time_witness :
    countUploads (repeatedPollEffects "job-1"
      ⟨Except.ok ⟨"job-1", "COMPLETED", some "http://out.mp4", none⟩, Except.ok "u"⟩ 2) = 2 :=
  completed_polls_upload_each_time "job-1"
    ⟨"job-1", "COMPLETED", some "http://out.mp4", none⟩ (Except.ok "u") rfl 2

/-- C10: for a job reported `"COMPLETED"` whose re-upload step raises a
generic (non-`ApiError`) exception — which is what happens when
`output_url` is absent, since the hosting library rejects a `None` source
with an ordinary exception — `get_status` answers HTTP 500 with the
generic message, and its body carries no `status` field at all, so the
`COMPLETED` status is not returned. -/
theorem completed_upload_failure_yields_500
    (job_id m : String) (g : Generation) (hs : g.status = "COMPLETED") :
    (get_status job_id ⟨Except.ok g, Except.error (Exc.other m)⟩).1 =
      ⟨500, [("detail", "An unexpected error occurred: " ++ m)]⟩ ∧
    ((get_status job_id ⟨Except.ok g, Except.error (Exc.other m)⟩).1.body.lookup
      "status") = none := by
  constructor <;> simp [get_status, hs, handleExcStatus]

/-- Witness for C10: a completed job with no `output_url`, whose upload
step raises as the hosting library does on an empty source. -/
theorem completed_upload_failure_yields_500_witness :
    (get_status "job-1" ⟨Except.ok ⟨"job-1", "COMPLETED", none, none⟩,
        Except.error (Exc.other "Empty file")⟩).1 =
      ⟨500, [("detail", "An unexpected error occurred: " ++ "Empty file")]⟩ ∧
    ((get_status "job-1" ⟨Except.ok ⟨"job-1", "COMPLETED", none, none⟩,
        Except.error (Exc.other "Empty file")⟩).1.body.lookup "status") = none :=
  completed_upload_failure_yields_500 "job-1" "Empty file"
    ⟨"job-1", "COMPLETED", none, none⟩ rfl

end Lipsync
